import Mathlib

/-!
Shallow embedding of `src/index.js` of the Simon Says browser game.

Colors are the strings of the JS source.  The mutable module-level
variables (`computerSequence`, `playerSequence`, `maxRoundCount`,
`roundCount`) together with the observable presentation state (hidden
classes, the `unclickable` class on the pad container, status/heading
text, and the list of `alert` messages emitted so far) form `GameState`.
Each JS function becomes a state-passing Lean function.  `Math.random()`
is modelled by an explicit `randomIndex : Nat` parameter, reduced modulo
the collection length so that every in-range index of
`Math.floor(Math.random() * collection.length)` is representable.
-/

/-- Observable game state: the four module-level variables of
`src/index.js` plus the presentation effects the handlers perform. -/
structure GameState where
  computerSequence : List String
  playerSequence : List String
  maxRoundCount : Nat
  roundCount : Nat
  startHidden : Bool
  statusHidden : Bool
  padUnclickable : Bool
  statusText : String
  headingText : String
  alerts : List String
  deriving DecidableEq, Repr

/-- The `color` fields of the `pads` array of `src/index.js`. -/
def pads : List String := ["red", "green", "blue", "yellow"]

/-- `levelMap` object of `setLevel`: property lookup on the keys 1..4,
any other key yields `undefined` (here `none`). -/
def levelMap (level : Nat) : Option Nat :=
  if level = 1 then some 8
  else if level = 2 then some 14
  else if level = 3 then some 20
  else if level = 4 then some 31
  else none

/-- Return value of `setLevel`: either the numeric `maxRoundCount` or
the validation message string. -/
inductive SetLevelResult where
  | num (n : Nat)
  | msg (s : String)
  deriving DecidableEq, Repr

/-- `setLevel(level)` of `src/index.js`: on a valid level stores and
returns the mapped round count, otherwise returns the validation
message without touching `maxRoundCount`. -/
def setLevel (s : GameState) (level : Nat) : GameState × SetLevelResult :=
  match levelMap level with
  | none => (s, SetLevelResult.msg "Please enter level 1, 2, 3, or 4")
  | some n => ({ s with maxRoundCount := n }, SetLevelResult.num n)

/-- `setLevel()` called with no argument: the JS default parameter
`level = 1` applies. -/
def setLevelDefault (s : GameState) : GameState × SetLevelResult :=
  setLevel s 1

/-- `getRandomItem(collection)`: `null` (`none`) on an empty collection,
otherwise the element at `Math.floor(Math.random() * length)`, modelled
as `randomIndex % length`. -/
def getRandomItem {α : Type} (collection : List α) (randomIndex : Nat) : Option α :=
  if collection.length = 0 then none
  else collection.get? (randomIndex % collection.length)

/-- A presentation element carrying a `textContent` property
(`undefined` is `none`). -/
structure Elem where
  textContent : Option String
  deriving DecidableEq, Repr

/-- Argument shape accepted by `setText`: a single element, or a
NodeList / HTMLCollection / array of elements. -/
inductive TextTarget where
  | single (e : Elem)
  | collection (es : List Elem)
  deriving DecidableEq, Repr

/-- `setText(element, text)` of `src/index.js`: on a collection, sets the
first element when present and returns an object carrying the text, on
an empty collection returns an object whose `textContent` is
`undefined`; on a single element sets and returns the text.  The second
component is the `textContent` field of the returned object. -/
def setText : TextTarget → String → TextTarget × Option String
  | TextTarget.collection [], _ => (TextTarget.collection [], none)
  | TextTarget.collection (e :: es), t =>
      (TextTarget.collection ({ e with textContent := some t } :: es), some t)
  | TextTarget.single e, t => (TextTarget.single { e with textContent := some t }, some t)

/-- `resetGame(text)` of `src/index.js`: clears both sequences and both
counters, alerts the message, restores the heading, shows the start
button, hides the status and makes the pads unclickable. -/
def resetGame (s : GameState) (text : String) : GameState :=
  { s with
    computerSequence := []
    playerSequence := []
    roundCount := 0
    maxRoundCount := 0
    alerts := s.alerts ++ [text]
    headingText := "Simon Says"
    startHidden := false
    statusHidden := true
    padUnclickable := true }

/-- `checkRound()` of `src/index.js`: win-reset when the computer
sequence has reached `maxRoundCount`, otherwise advance the round
counter, clear the player sequence and update the status (a
`playComputerTurn` call is then scheduled after 1000 ms). -/
def checkRound (s : GameState) : GameState :=
  if s.computerSequence.length = s.maxRoundCount then
    resetGame s "You win! Great memory!"
  else
    { s with
      roundCount := s.roundCount + 1
      playerSequence := []
      statusText := "Nice! Keep going!" }

/-- `checkPress(color)` of `src/index.js`: pushes the color, updates the
status with the remaining press count (a JS number, hence `Int`), resets
on a positional mismatch, and calls `checkRound()` when no presses
remain. -/
def checkPress (s : GameState) (color : String) : GameState :=
  let player := s.playerSequence ++ [color]
  let index := player.length - 1
  let remainingPresses : Int := (s.computerSequence.length : Int) - (player.length : Int)
  let s1 : GameState :=
    { s with
      playerSequence := player
      statusText := "Player\x27s turn... " ++ toString remainingPresses ++ " presses left" }
  if s1.computerSequence.get? index ≠ some color then
    resetGame s1 "Wrong pad! Game over."
  else if remainingPresses = 0 then
    checkRound s1
  else
    s1

/-- Result of a computer turn: the state after the handler body ran, and
the sequence handed to `activatePads` for playback. -/
structure TurnResult where
  state : GameState
  playback : List String
  deriving DecidableEq, Repr

/-- `playComputerTurn()` of `src/index.js`, generalised over the pad
list it draws from: makes the pads unclickable, updates status and
heading, draws one random color and appends it to `computerSequence`,
then plays the whole sequence back.  With an empty pad list the JS
reads `.color` of `null` and throws, so no color is appended; the
error carries the state at the fault. -/
def playComputerTurn (padsList : List String) (randomIndex : Nat) (s : GameState) :
    Except GameState TurnResult :=
  let s1 : GameState :=
    { s with
      padUnclickable := true
      statusText := "The computer\x27s turn..."
      headingText := "Round " ++ toString s.roundCount ++ " of " ++ toString s.maxRoundCount }
  match getRandomItem padsList randomIndex with
  | none => Except.error s1
  | some c =>
      let s2 : GameState := { s1 with computerSequence := s1.computerSequence ++ [c] }
      Except.ok { state := s2, playback := s2.computerSequence }

/-- `playHumanTurn()` of `src/index.js`: re-enables the pads and shows
the number of presses left. -/
def playHumanTurn (s : GameState) : GameState :=
  let pressesLeft : Int := (s.computerSequence.length : Int) - (s.playerSequence.length : Int)
  { s with
    padUnclickable := false
    statusText := "Player\x27s turn... " ++ toString pressesLeft ++ " presses left" }

/-- `padHandler(event)` of `src/index.js`: returns `undefined` (`none`)
when the dataset carries no color (absent or the falsy empty string) or
no pad has that color; otherwise plays the sound, animates the pad
(presentation only), forwards the color to `checkPress` and returns the
color. -/
def padHandler (s : GameState) (dataColor : Option String) : GameState × Option String :=
  match dataColor with
  | none => (s, none)
  | some color =>
      if color = "" then (s, none)
      else if color ∈ pads then (checkPress s color, some color)
      else (s, none)

/-- `startButtonHandler()` of `src/index.js`: calls `setLevel()` with no
argument, resets both sequences, sets the round counter to 1, swaps the
hidden classes and runs the computer turn. -/
def startButtonHandler (randomIndex : Nat) (s : GameState) : GameState :=
  let s1 := (setLevelDefault s).1
  let s2 : GameState :=
    { s1 with
      computerSequence := []
      playerSequence := []
      roundCount := 1
      startHidden := true
      statusHidden := false }
  match playComputerTurn pads randomIndex s2 with
  | Except.ok res => res.state
  | Except.error sE => sE

/-- Modelled from the spec: the starter HTML and CSS of this repository
are not under `src/`; per spec section 6 a signal press is "ignored
(no-op) outside" the player-turn phase, the mechanism being the
`unclickable` class on the pad container (CSS `pointer-events`), which
the HTML carries initially.  A click reaches `padHandler` only when the
container is clickable. -/
def clickPad (s : GameState) (dataColor : Option String) : GameState × Option String :=
  if s.padUnclickable then (s, none) else padHandler s dataColor

/-- Modelled from the spec: the initial (Idle) page state — pads
unclickable, start button shown, status hidden, everything else at the
JS initial values of `src/index.js`. -/
def initialState : GameState :=
  { computerSequence := []
    playerSequence := []
    maxRoundCount := 0
    roundCount := 0
    startHidden := false
    statusHidden := true
    padUnclickable := true
    statusText := ""
    headingText := "Simon Says"
    alerts := [] }

/-- Folding a list of presses through `checkPress`, in order. -/
def pressAll (s : GameState) (cs : List String) : GameState :=
  cs.foldl checkPress s

/-- Invariant of spec section 3: the player sequence never outgrows the
computer sequence. -/
def seqInvariant (s : GameState) : Prop :=
  s.playerSequence.length ≤ s.computerSequence.length

instance (s : GameState) : Decidable (seqInvariant s) := by
  unfold seqInvariant; infer_instance

/-- A convenient constructor for concrete states in examples. -/
def mkState (cs ps : List String) (mx rc : Nat) : GameState :=
  { computerSequence := cs
    playerSequence := ps
    maxRoundCount := mx
    roundCount := rc
    startHidden := true
    statusHidden := false
    padUnclickable := false
    statusText := ""
    headingText := ""
    alerts := [] }

/-- The state after steps 1-4 of `checkPress`: the color pushed and the
status text updated, before the mismatch / round-completion checks. -/
def pushState (s : GameState) (c : String) : GameState :=
  { s with
    playerSequence := s.playerSequence ++ [c]
    statusText := "Player\x27s turn... " ++
      toString ((s.computerSequence.length : Int) - ((s.playerSequence ++ [c]).length : Int)) ++
      " presses left" }

lemma checkPress_cases (s : GameState) (c : String) :
    (s.computerSequence.get? s.playerSequence.length ≠ some c ∧
       checkPress s c = resetGame (pushState s c) "Wrong pad! Game over.")
  ∨ (s.computerSequence.get? s.playerSequence.length = some c ∧
       s.playerSequence.length + 1 = s.computerSequence.length ∧
       checkPress s c = checkRound (pushState s c))
  ∨ (s.computerSequence.get? s.playerSequence.length = some c ∧
       s.playerSequence.length + 1 ≠ s.computerSequence.length ∧
       checkPress s c = pushState s c) := by
  have hidx : (s.playerSequence ++ [c]).length - 1 = s.playerSequence.length := by simp
  by_cases hm : s.computerSequence.get? s.playerSequence.length = some c
  · by_cases hlen : s.playerSequence.length + 1 = s.computerSequence.length
    · refine Or.inr (Or.inl ⟨hm, hlen, ?_⟩)
      simp only [checkPress, pushState, hidx, hm]
      rw [if_neg (by simp [hm]), if_pos (by simp; omega)]
    · refine Or.inr (Or.inr ⟨hm, hlen, ?_⟩)
      simp only [checkPress, pushState, hidx, hm]
      rw [if_neg (by simp [hm]), if_neg (by simp; omega)]
  · refine Or.inl ⟨hm, ?_⟩
    simp only [checkPress, pushState, hidx]
    rw [if_pos (by simpa using hm)]

lemma getRandomItem_pads_some (r : Nat) :
    ∃ c, getRandomItem pads r = some c ∧ c ∈ pads := by
  have h : r % 4 = 0 ∨ r % 4 = 1 ∨ r % 4 = 2 ∨ r % 4 = 3 := by omega
  rcases h with h | h | h | h
  · exact ⟨"red", by simp [getRandomItem, pads, h], by simp [pads]⟩
  · exact ⟨"green", by simp [getRandomItem, pads, h], by simp [pads]⟩
  · exact ⟨"blue", by simp [getRandomItem, pads, h], by simp [pads]⟩
  · exact ⟨"yellow", by simp [getRandomItem, pads, h], by simp [pads]⟩

lemma playComputerTurn_ok (padsList : List String) (r : Nat) (s : GameState) (c : String)
    (hc : getRandomItem padsList r = some c) :
    ∃ res, playComputerTurn padsList r s = Except.ok res
      ∧ res.state.computerSequence = s.computerSequence ++ [c]
      ∧ res.playback = s.computerSequence ++ [c]
      ∧ res.state.padUnclickable = true
      ∧ res.state.playerSequence = s.playerSequence
      ∧ res.state.roundCount = s.roundCount
      ∧ res.state.maxRoundCount = s.maxRoundCount
      ∧ res.state.alerts = s.alerts := by
  unfold playComputerTurn
  rw [hc]
  exact ⟨_, rfl, rfl, rfl, rfl, rfl, rfl, rfl, rfl⟩

lemma pressAll_cons (s : GameState) (c : String) (cs : List String) :
    pressAll s (c :: cs) = pressAll (checkPress s c) cs := rfl

lemma replay_full_sequence (rest : List String) : ∀ s : GameState,
    s.computerSequence = s.playerSequence ++ rest →
    rest ≠ [] →
    s.computerSequence.length ≠ s.maxRoundCount →
    (pressAll s rest).roundCount = s.roundCount + 1
  ∧ (pressAll s rest).playerSequence = []
  ∧ (pressAll s rest).computerSequence = s.computerSequence
  ∧ (pressAll s rest).maxRoundCount = s.maxRoundCount := by
  induction rest with
  | nil => exact fun s _ hne _ => absurd rfl hne
  | cons c cs ih =>
    intro s hcomp _ hmax
    have hget : s.computerSequence.get? s.playerSequence.length = some c := by
      rw [hcomp, List.get?_eq_getElem?, List.getElem?_append_right (Nat.le_refl _)]
      simp
    cases cs with
    | nil =>
      have hlen : s.playerSequence.length + 1 = s.computerSequence.length := by
        rw [hcomp]; simp
      rcases checkPress_cases s c with ⟨hm, _⟩ | ⟨_, _, heq⟩ | ⟨_, hl, _⟩
      · exact absurd hget hm
      · have hp : pressAll s [c] = checkRound (pushState s c) := heq
        have hmax2 : ¬((pushState s c).computerSequence.length = (pushState s c).maxRoundCount) := by
          simpa [pushState] using hmax
        rw [hp]
        simp [checkRound, pushState, hmax]
      · exact absurd hlen hl
    | cons c2 cs2 =>
      have hlen : s.playerSequence.length + 1 ≠ s.computerSequence.length := by
        rw [hcomp]; simp
      rcases checkPress_cases s c with ⟨hm, _⟩ | ⟨_, hl, _⟩ | ⟨_, _, heq⟩
      · exact absurd hget hm
      · exact absurd hl hlen
      · rw [pressAll_cons, heq]
        have hih := ih (pushState s c) (by simp [pushState, hcomp]) (by simp)
          (by simpa [pushState] using hmax)
        simpa [pushState] using hih

/-- C1: on round evaluation, if the computer sequence has reached
`maxRoundCount` the game resets with the win message; otherwise the
round counter is incremented, the player sequence is cleared, and the
next computer turn appends exactly one pad color and plays the whole
new sequence back. -/
theorem checkRound_round_evaluation (s : GameState) (r : Nat) :
    (s.computerSequence.length = s.maxRoundCount →
        checkRound s = resetGame s "You win! Great memory!")
  ∧ (s.computerSequence.length ≠ s.maxRoundCount →
        (checkRound s).roundCount = s.roundCount + 1
      ∧ (checkRound s).playerSequence = []
      ∧ (checkRound s).computerSequence = s.computerSequence
      ∧ ∃ res, playComputerTurn pads r (checkRound s) = Except.ok res
          ∧ (∃ c, c ∈ pads ∧ res.state.computerSequence = s.computerSequence ++ [c])
          ∧ res.playback = res.state.computerSequence) := by
  constructor
  · intro h
    simp [checkRound, h]
  · intro h
    have h1 : checkRound s =
        { s with roundCount := s.roundCount + 1, playerSequence := [],
                 statusText := "Nice! Keep going!" } := by
      simp [checkRound, h]
    obtain ⟨c, hc, hcmem⟩ := getRandomItem_pads_some r
    obtain ⟨res, hres, hcomp, hpb, _⟩ := playComputerTurn_ok pads r (checkRound s) c hc
    refine ⟨by rw [h1], by rw [h1], by rw [h1], res, hres, ⟨c, hcmem, ?_⟩, ?_⟩
    · rw [hcomp, h1]
    · rw [hpb, hcomp]

/-- C1 witness: concrete instances of both branches of the round
evaluation. -/
theorem checkRound_round_evaluation_witness :
    checkRound (mkState ["red"] ["red"] 1 1) =
      resetGame (mkState ["red"] ["red"] 1 1) "You win! Great memory!"
  ∧ (checkRound (mkState ["red"] ["red"] 8 1)).roundCount = 2 :=
  ⟨(checkRound_round_evaluation (mkState ["red"] ["red"] 1 1) 0).1 (by decide),
   ((checkRound_round_evaluation (mkState ["red"] ["red"] 8 1) 0).2 (by decide)).1⟩

/-- C2: a press whose color mismatches the computer sequence at the
current position immediately resets the whole game state to the idle
values and alerts the loss message. -/
theorem checkPress_mismatch_resets (s : GameState) (color : String)
    (h : s.computerSequence.get? s.playerSequence.length ≠ some color) :
    (checkPress s color).computerSequence = []
  ∧ (checkPress s color).playerSequence = []
  ∧ (checkPress s color).roundCount = 0
  ∧ (checkPress s color).maxRoundCount = 0
  ∧ (checkPress s color).alerts = s.alerts ++ ["Wrong pad! Game over."] := by
  rcases checkPress_cases s color with ⟨_, heq⟩ | ⟨hm, _⟩ | ⟨hm, _⟩
  · rw [heq]
    exact ⟨rfl, rfl, rfl, rfl, rfl⟩
  · exact absurd hm h
  · exact absurd hm h

/-- C2 witness: pressing green against the one-element target sequence
containing red resets everything at that very press. -/
theorem checkPress_mismatch_resets_witness :
    (checkPress (mkState ["red"] [] 8 1) "green").computerSequence = []
  ∧ (checkPress (mkState ["red"] [] 8 1) "green").playerSequence = []
  ∧ (checkPress (mkState ["red"] [] 8 1) "green").roundCount = 0
  ∧ (checkPress (mkState ["red"] [] 8 1) "green").maxRoundCount = 0
  ∧ (checkPress (mkState ["red"] [] 8 1) "green").alerts = ["Wrong pad! Game over."] :=
  checkPress_mismatch_resets (mkState ["red"] [] 8 1) "green" (by decide)

lemma resetGame_inv (s : GameState) (t : String) : seqInvariant (resetGame s t) := by
  simp [seqInvariant, resetGame]

lemma checkRound_inv (s : GameState) : seqInvariant (checkRound s) := by
  unfold checkRound
  split
  · exact resetGame_inv _ _
  · simp [seqInvariant]

lemma checkPress_inv (s : GameState) (c : String) : seqInvariant (checkPress s c) := by
  rcases checkPress_cases s c with ⟨_, heq⟩ | ⟨_, _, heq⟩ | ⟨hm, _, heq⟩
  · rw [heq]; exact resetGame_inv _ _
  · rw [heq]; exact checkRound_inv _
  · rw [heq]
    have hlt : s.playerSequence.length < s.computerSequence.length := by
      have := List.get?_eq_some.mp hm
      exact this.1
    simp only [seqInvariant, pushState, List.length_append, List.length_cons,
      List.length_nil]
    omega

lemma startButtonHandler_fields (r : Nat) (s : GameState) :
    (startButtonHandler r s).playerSequence = []
  ∧ (startButtonHandler r s).roundCount = 1
  ∧ (startButtonHandler r s).maxRoundCount = 8
  ∧ ∃ c, c ∈ pads ∧ (startButtonHandler r s).computerSequence = [c] := by
  obtain ⟨c0, hc0, hmem⟩ := getRandomItem_pads_some r
  unfold startButtonHandler playComputerTurn
  rw [hc0]
  exact ⟨rfl, rfl, rfl, c0, hmem, rfl⟩

/-- C3: every operation of the program keeps the player sequence no
longer than the computer sequence, and a matching press that makes the
lengths equal hands the state to the round evaluation. -/
theorem player_never_outgrows_computer (s : GameState) (c t : String)
    (dc : Option String) (r : Nat) (hs : seqInvariant s) :
    seqInvariant (checkPress s c)
  ∧ seqInvariant (checkRound s)
  ∧ seqInvariant (resetGame s t)
  ∧ (∀ res, playComputerTurn pads r s = Except.ok res → seqInvariant res.state)
  ∧ seqInvariant (startButtonHandler r s)
  ∧ seqInvariant (padHandler s dc).1
  ∧ seqInvariant (playHumanTurn s)
  ∧ (s.computerSequence.get? s.playerSequence.length = some c →
       s.playerSequence.length + 1 = s.computerSequence.length →
       ∃ s1, checkPress s c = checkRound s1
         ∧ s1.playerSequence = s.playerSequence ++ [c]
         ∧ s1.computerSequence = s.computerSequence
         ∧ s1.roundCount = s.roundCount
         ∧ s1.maxRoundCount = s.maxRoundCount) := by
  refine ⟨checkPress_inv s c, checkRound_inv s, resetGame_inv s t, ?_, ?_, ?_,
    hs.trans (Nat.le_refl _), ?_⟩
  · intro res hres
    obtain ⟨c0, hc0, _⟩ := getRandomItem_pads_some r
    obtain ⟨res', hres', hcomp, _, _, hplayer, _⟩ := playComputerTurn_ok pads r s c0 hc0
    rw [hres'] at hres
    cases hres
    simp only [seqInvariant, hcomp, hplayer, List.length_append]
    exact hs.trans (Nat.le_add_right _ _)
  · simp [seqInvariant, (startButtonHandler_fields r s).1]
  · match dc with
    | none => exact hs
    | some color =>
      simp only [padHandler]
      by_cases hc : color = ""
      · simp only [hc, if_pos rfl]
        exact hs
      · rw [if_neg hc]
        by_cases hmem : color ∈ pads
        · rw [if_pos hmem]
          exact checkPress_inv s color
        · rw [if_neg hmem]
          exact hs
  · intro hm hlen
    rcases checkPress_cases s c with ⟨hm2, _⟩ | ⟨_, _, heq⟩ | ⟨_, hl, _⟩
    · exact absurd hm hm2
    · exact ⟨pushState s c, heq, rfl, rfl, rfl, rfl⟩
    · exact absurd hlen hl

/-- C3 witness: the invariant is preserved at a concrete mid-round
state. -/
theorem player_never_outgrows_computer_witness :
    seqInvariant (checkPress (mkState ["red", "blue"] ["red"] 8 1) "blue") :=
  (player_never_outgrows_computer (mkState ["red", "blue"] ["red"] 8 1) "blue" "x"
    none 0 (by decide)).1

/-- C4: `setLevel` realises the fixed mapping 1, 2, 3, 4 into 8, 14,
20, 31, returns the validation message on every other level without
producing a number, and calling it without an argument applies the
default level 1. -/
theorem setLevel_level_mapping (s : GameState) (L : Nat) (h : L ∉ [1, 2, 3, 4]) :
    (setLevel s 1).2 = SetLevelResult.num 8 ∧ (setLevel s 1).1.maxRoundCount = 8
  ∧ (setLevel s 2).2 = SetLevelResult.num 14 ∧ (setLevel s 2).1.maxRoundCount = 14
  ∧ (setLevel s 3).2 = SetLevelResult.num 20 ∧ (setLevel s 3).1.maxRoundCount = 20
  ∧ (setLevel s 4).2 = SetLevelResult.num 31 ∧ (setLevel s 4).1.maxRoundCount = 31
  ∧ (setLevel s L).2 = SetLevelResult.msg "Please enter level 1, 2, 3, or 4"
  ∧ (∀ n, (setLevel s L).2 ≠ SetLevelResult.num n)
  ∧ (setLevelDefault s).2 = SetLevelResult.num 8
  ∧ (setLevelDefault s).1.maxRoundCount = 8 := by
  have h' : L ≠ 1 ∧ L ≠ 2 ∧ L ≠ 3 ∧ L ≠ 4 := by simpa using h
  obtain ⟨h1, h2, h3, h4⟩ := h'
  refine ⟨rfl, rfl, rfl, rfl, rfl, rfl, rfl, rfl, ?_, ?_, rfl, rfl⟩
  · simp [setLevel, levelMap, h1, h2, h3, h4]
  · intro n
    simp [setLevel, levelMap, h1, h2, h3, h4]

/-- C4 witness: the mapping at level 1 and the validation message at
level 5. -/
theorem setLevel_level_mapping_witness :
    (setLevel initialState 1).2 = SetLevelResult.num 8
  ∧ (setLevel initialState 5).2 = SetLevelResult.msg "Please enter level 1, 2, 3, or 4" := by
  have h := setLevel_level_mapping initialState 5 (by decide)
  exact ⟨h.1, h.2.2.2.2.2.2.2.2.1⟩

/-- C5 counterexample: after the round-1 evaluation has fired (round
counter 2, player sequence cleared, computer sequence still the
identical round-1 target), replaying the identical input fires the
evaluation again and advances the round counter to 3. -/
theorem round_completion_not_idempotent_cex :
    (checkRound (mkState ["red"] ["red"] 8 1)).roundCount = 2
  ∧ (checkRound (mkState ["red"] ["red"] 8 1)).playerSequence = []
  ∧ (pressAll (checkRound (mkState ["red"] ["red"] 8 1)) ["red"]).roundCount = 3 := by
  refine ⟨by decide, by decide, by decide⟩

/-- C5 amended: round completion is not idempotent per round — once the
round evaluation has fired for a non-final round, replaying the
identical player input before the next computer turn fires the
evaluation again and advances the round counter a second time. -/
theorem round_completion_not_idempotent (s : GameState)
    (_hfull : s.playerSequence = s.computerSequence)
    (hne : s.computerSequence ≠ [])
    (hmax : s.computerSequence.length ≠ s.maxRoundCount) :
    (checkRound s).roundCount = s.roundCount + 1
  ∧ (pressAll (checkRound s) s.computerSequence).roundCount = s.roundCount + 2 := by
  have h1 : checkRound s =
      { s with roundCount := s.roundCount + 1, playerSequence := [],
               statusText := "Nice! Keep going!" } := by
    simp [checkRound, hmax]
  have hrep := replay_full_sequence s.computerSequence (checkRound s)
    (by rw [h1]; simp) hne (by rw [h1]; exact hmax)
  constructor
  · rw [h1]
  · rw [hrep.1, h1]

/-- C5 amended witness: the double advance at the concrete one-round
state. -/
theorem round_completion_not_idempotent_witness :
    (checkRound (mkState ["blue"] ["blue"] 8 1)).roundCount = 2
  ∧ (pressAll (checkRound (mkState ["blue"] ["blue"] 8 1))
       (mkState ["blue"] ["blue"] 8 1).computerSequence).roundCount = 3 :=
  round_completion_not_idempotent (mkState ["blue"] ["blue"] 8 1)
    (by decide) (by decide) (by decide)

/-- C6: while the pad container is unclickable — initially, after a
reset, and during the computer turn — a pad press is a no-op: no color
reaches `checkPress` and no game state changes. -/
theorem press_outside_player_turn_noop (s : GameState) (dc : Option String)
    (t : String) (r : Nat) (h : s.padUnclickable = true) :
    clickPad s dc = (s, none)
  ∧ initialState.padUnclickable = true
  ∧ (resetGame s t).padUnclickable = true
  ∧ (∀ res, playComputerTurn pads r s = Except.ok res → res.state.padUnclickable = true) := by
  refine ⟨by simp [clickPad, h], rfl, rfl, ?_⟩
  intro res hres
  obtain ⟨c0, hc0, _⟩ := getRandomItem_pads_some r
  obtain ⟨res', hres', _, _, hpad, _⟩ := playComputerTurn_ok pads r s c0 hc0
  rw [hres'] at hres
  cases hres
  exact hpad

/-- C6 witness: a press on the freshly loaded page is dropped without
touching the state. -/
theorem press_outside_player_turn_noop_witness :
    clickPad initialState (some "red") = (initialState, none) :=
  (press_outside_player_turn_noop initialState (some "red") "x" 0 rfl).1

/-- C7: drawing from an empty signal set yields `null` rather than a
fault, and a computer turn run against an empty pad list leaves the
computer sequence untouched. -/
theorem empty_signal_set_defensive (s : GameState) (r : Nat) :
    getRandomItem ([] : List String) r = none
  ∧ ∃ sE, playComputerTurn [] r s = Except.error sE
      ∧ sE.computerSequence = s.computerSequence := by
  exact ⟨rfl, _, rfl, rfl⟩

/-- C8: a pad press carrying no color, the falsy empty color, or a
color matching no pad returns `undefined` and mutates nothing. -/
theorem padHandler_invalid_signal_noop (s : GameState) (c : String) (h : c ∉ pads) :
    padHandler s none = (s, none) ∧ padHandler s (some c) = (s, none) := by
  refine ⟨rfl, ?_⟩
  simp only [padHandler]
  by_cases hc : c = ""
  · rw [if_pos hc]
  · rw [if_neg hc, if_neg h]

/-- C8 witness: a press carrying the unknown color purple is a no-op on
the initial state. -/
theorem padHandler_invalid_signal_noop_witness :
    padHandler initialState none = (initialState, none)
  ∧ padHandler initialState (some "purple") = (initialState, none) :=
  padHandler_invalid_signal_noop initialState "purple" (by decide)

/-- C9: `setText` on an empty element collection is a no-op returning
an object with undefined text; on a non-empty collection or a single
element the text is written and returned. -/
theorem setText_empty_collection_noop (e : Elem) (es : List Elem) (t : String) :
    (setText (TextTarget.collection []) t).2 = none
  ∧ (setText (TextTarget.collection []) t).1 = TextTarget.collection []
  ∧ (setText (TextTarget.collection (e :: es)) t).2 = some t
  ∧ (setText (TextTarget.collection (e :: es)) t).1 =
      TextTarget.collection ({ e with textContent := some t } :: es)
  ∧ (setText (TextTarget.single e) t).2 = some t
  ∧ (setText (TextTarget.single e) t).1 = TextTarget.single { e with textContent := some t } :=
  ⟨rfl, rfl, rfl, rfl, rfl, rfl⟩

/-- C10: every game start runs `setLevel()` with no argument, so the
default level 1 applies and `maxRoundCount` is 8 no matter what level
was selected beforehand. -/
theorem start_uses_default_level (s : GameState) (r : Nat) :
    (startButtonHandler r s).maxRoundCount = 8
  ∧ (setLevelDefault s).2 = SetLevelResult.num 8 :=
  ⟨(startButtonHandler_fields r s).2.2.1, rfl⟩
